import Mathlib

/-!
Verification of the supabase-py `Client` facade (`supabase/client.py`).

The file embeds the facade shallowly: the URL/key validators (Python `re`
patterns, translated to executable character-list matchers), the endpoint
derivations, and the construction/delegation logic of `Client.__init__`,
`set_session`, `functions`, `table`, `from_`, `rpc` and `_get_auth_headers`.
External sub-client libraries (gotrue, postgrest, storage3, supafunc) are not
part of the repository; they are modelled as passive state records carrying
exactly what the facade reads and writes.
-/

namespace Supabase

/-! ## Regular-expression translations

`Client.__init__` validates inputs with `re.match(r"^(https?)://.+", url)` and
`re.match(r"^[A-Za-z0-9-_=]+\.[A-Za-z0-9-_=]+\.?[A-Za-z0-9-_.+/=]*$", key)`,
and detects managed hosting with `re.search(r"(supabase\.co)|(supabase\.in)", url)`.
The matchers below implement those patterns on `List Char`. -/

/-- Character class `[A-Za-z0-9-_=]` of the key pattern. -/
def isC1 (c : Char) : Bool :=
  c.isAlphanum || c = '-' || c = '_' || c = '='

/-- Character class `[A-Za-z0-9-_.+/=]` of the key pattern tail. -/
def isC2 (c : Char) : Bool :=
  isC1 c || c = '.' || c = '+' || c = '/'

/-- After the first `.`: the remainder must match `[A-Za-z0-9-_=]+\.?[A-Za-z0-9-_.+/=]*$`,
which (since the tail class contains `.` and every class-1 character) holds iff the
remainder is nonempty, starts with a class-1 character and consists of class-2
characters. -/
def matchTail : List Char → Bool
  | [] => false
  | c :: cs => isC1 c && cs.all isC2

/-- Scan `[A-Za-z0-9-_=]*` up to the first `.`, then hand over to `matchTail`.
Fails when the list ends before a `.` is seen. -/
def afterFirst : List Char → Bool
  | [] => false
  | c :: cs => if c = '.' then matchTail cs else isC1 c && afterFirst cs

/-- The anchored key pattern `^[A-Za-z0-9-_=]+\.[A-Za-z0-9-_=]+\.?[A-Za-z0-9-_.+/=]*$`
on a character list: at least one class-1 character, a `.`, then `matchTail`. -/
def coreMatchL : List Char → Bool
  | [] => false
  | c :: cs => isC1 c && afterFirst cs

/-- A single newline at the very end of the subject, if present (the Python
dollar anchor also matches just before a trailing newline). -/
def stripTrailingNewline (l : List Char) : Option (List Char) :=
  if l.getLast? = some '\n' then some l.dropLast else none

/-- `re.match` of the key pattern: the pattern is anchored with `$`, which in
Python matches at the end of the string or just before a trailing newline. -/
def jwtMatch (s : String) : Bool :=
  coreMatchL s.data ||
    (match stripTrailingNewline s.data with
     | some l => coreMatchL l
     | none => false)

/-- `re.match(r"^(https?)://.+", url)`: the string starts with `http://` or
`https://` followed by at least one non-newline character (`.` does not match
`\n`). -/
def urlMatchL : List Char → Bool
  | 'h' :: 't' :: 't' :: 'p' :: rest =>
    (match rest with
     | ':' :: '/' :: '/' :: c :: _ => c != '\n'
     | 's' :: ':' :: '/' :: '/' :: c :: _ => c != '\n'
     | _ => false)
  | _ => false

/-- URL validator on strings. -/
def urlMatch (s : String) : Bool := urlMatchL s.data

/-- `pat` is a prefix of `l`. -/
def prefOf : List Char → List Char → Bool
  | [], _ => true
  | _ :: _, [] => false
  | a :: as, b :: bs => a == b && prefOf as bs

/-- `pat` occurs as a contiguous substring of `l` (the semantics of
`re.search` on a pattern with no metacharacters). -/
def containsSub (pat : List Char) : List Char → Bool
  | [] => prefOf pat []
  | c :: t => prefOf pat (c :: t) || containsSub pat t

/-- `re.search(r"(supabase\.co)|(supabase\.in)", url)`: the URL contains the
literal substring `supabase.co` or `supabase.in`. -/
def isPlatform (s : String) : Bool :=
  containsSub "supabase.co".data s.data || containsSub "supabase.in".data s.data

/-- Python `str.split(".")` on a character list: split at every `.`,
keeping empty pieces. -/
def splitDot : List Char → List (List Char)
  | [] => [[]]
  | c :: t =>
    if c = '.' then [] :: splitDot t
    else
      match splitDot t with
      | [] => [[c]]
      | h :: r => (c :: h) :: r

/-- `supabase_url.split(".")` as strings. -/
def splitDotS (s : String) : List String :=
  (splitDot s.data).map fun l => String.mk l

/-- Python `str.replace("http", "ws")`: replace every non-overlapping
occurrence of `http`, scanning left to right. -/
def replaceHttpWs : List Char → List Char
  | 'h' :: 't' :: 't' :: 'p' :: rest => 'w' :: 's' :: replaceHttpWs rest
  | c :: t => c :: replaceHttpWs t
  | [] => []

/-! ## Data model

The sub-clients live in external libraries (gotrue, postgrest, storage3,
supafunc); the facade only constructs them and forwards state to them. -/

/-- Modelled from the spec: a gotrue `Session` holds an access token, a refresh
token and a user identity; only the tokens are read by this facade. -/
structure Session where
  access_token : String
  refresh_token : String
deriving DecidableEq, Repr, Inhabited

/-- Modelled from the spec: the gotrue `AuthResponse` reported by
`set_session`, carrying the resulting session. -/
structure AuthResponse where
  session : Option Session
deriving DecidableEq, Repr, Inhabited

/-- Modelled from the spec: the `ClientOptions` bundle
(`supabase/lib/client_options.py`, not part of the given sources): schema name
(default `"public"`), custom headers, token-refresh and session-persistence
flags, a pluggable local session-storage backend (modelled as the session it
would yield, if any), and the two sub-client timeouts. -/
structure ClientOptions where
  schema : String := "public"
  headers : List (String × String) := []
  auto_refresh_token : Bool := true
  persist_session : Bool := true
  storage : Option Session := none
  postgrest_client_timeout : Nat := 120
  storage_client_timeout : Nat := 20
deriving DecidableEq, Repr, Inhabited

/-- Modelled from the spec: the auth sub-client (gotrue wrapper
`SupabaseAuthClient`, external). It is constructed from the auth endpoint and
options; its current session is loaded from the pluggable local storage, and
`get_session` returns it. -/
structure SupabaseAuthClient where
  url : String
  auto_refresh_token : Bool
  persist_session : Bool
  headers : List (String × String)
  session : Option Session
deriving DecidableEq, Repr, Inhabited

/-- `auth.get_session()`: the current session, if any (local lookup). -/
def SupabaseAuthClient.get_session (a : SupabaseAuthClient) : Option Session :=
  a.session

/-- Modelled from the spec: `auth.set_session(access_token, refresh_token)`
installs the session made of the two tokens and reports it. -/
def SupabaseAuthClient.setSession (a : SupabaseAuthClient)
    (access_token refresh_token : String) : SupabaseAuthClient × AuthResponse :=
  ({ a with session := some ⟨access_token, refresh_token⟩ },
   ⟨some ⟨access_token, refresh_token⟩⟩)

/-- Modelled from the spec: the database sub-client (`SyncPostgrestClient`,
external). It holds the REST endpoint, headers, schema, timeout and the bearer
token installed by `auth(token)`. -/
structure SyncPostgrestClient where
  base_url : String
  headers : List (String × String)
  schema : String
  timeout : Nat
  token : Option String
deriving DecidableEq, Repr, Inhabited

/-- `postgrest.auth(token)`: re-point the bearer token. -/
def SyncPostgrestClient.auth (p : SyncPostgrestClient) (token : String) :
    SyncPostgrestClient :=
  { p with token := some token }

/-- Modelled from the spec: a query builder keyed by a table name, produced by
the `from_` factory of the database sub-client. -/
structure SyncRequestBuilder where
  base_url : String
  table_name : String
  token : Option String
deriving DecidableEq, Repr, Inhabited

/-- `postgrest.from_(table_name)`: the query-builder factory. -/
def SyncPostgrestClient.from_ (p : SyncPostgrestClient) (table_name : String) :
    SyncRequestBuilder :=
  ⟨p.base_url, table_name, p.token⟩

/-- Modelled from the spec: a filter builder for a stored-procedure call,
produced by the `rpc` factory of the database sub-client. -/
structure SyncFilterRequestBuilder where
  base_url : String
  fn : String
  params : List (String × String)
  token : Option String
deriving DecidableEq, Repr, Inhabited

/-- `postgrest.rpc(fn, params)`: the remote-procedure-call factory. -/
def SyncPostgrestClient.rpc (p : SyncPostgrestClient) (fn : String)
    (params : List (String × String)) : SyncFilterRequestBuilder :=
  ⟨p.base_url, fn, params, p.token⟩

/-- Modelled from the spec: the storage sub-client
(`SupabaseStorageClient`, external), frozen at construction with the storage
endpoint, the auth headers of that moment, and a timeout. -/
structure SupabaseStorageClient where
  url : String
  headers : List (String × String)
  timeout : Nat
deriving DecidableEq, Repr, Inhabited

/-- Modelled from the spec: the functions sub-client (`FunctionsClient`,
external), built per call from the functions endpoint and fresh auth headers. -/
structure FunctionsClient where
  url : String
  headers : List (String × String)
deriving DecidableEq, Repr, Inhabited

/-- Python `dict.update` on an insertion-ordered association list: existing
keys keep their position and take the new value, new keys are appended. -/
def updateOne (d : List (String × String)) (kv : String × String) :
    List (String × String) :=
  if d.any fun p => p.1 == kv.1 then
    d.map fun p => if p.1 == kv.1 then (p.1, kv.2) else p
  else
    d ++ [kv]

/-- `base.update(upd)` for string dictionaries. -/
def dictUpdate (d upd : List (String × String)) : List (String × String) :=
  upd.foldl updateOne d

/-- The auth-header computation of `Client._get_auth_headers`, as a function of
the raw key and the current session: a two-entry map, `apiKey` bound to the
raw key and `Authorization` bound to `Bearer ` followed by the token, where
the token is `data.access_token if data else None` — Python renders the
`None` fallback as the literal text `None` inside the f-string. -/
def authHeadersOf (supabase_key : String) (session : Option Session) :
    List (String × String) :=
  [("apiKey", supabase_key),
   ("Authorization",
    "Bearer " ++ (match session with
                  | some s => s.access_token
                  | none => "None"))]

/-- Errors construction can raise: the `SupabaseException` of the facade
itself (the single configuration error, with its message) or an `IndexError`
escaping from `url_parts[i]` in the functions-URL derivation. -/
inductive InitError where
  | supabaseException (message : String)
  | indexError
deriving DecidableEq, Repr, Inhabited

/-- The constructed client handle: validated inputs, the five derived
endpoints, the schema, and the owned sub-clients (realtime is a disabled
placeholder, `None` in the source). -/
structure Client where
  supabase_url : String
  supabase_key : String
  rest_url : String
  realtime_url : String
  auth_url : String
  storage_url : String
  functions_url : String
  schema : String
  auth : SupabaseAuthClient
  realtime : Option Unit
  postgrest : SyncPostgrestClient
  storage : SupabaseStorageClient
deriving DecidableEq, Repr, Inhabited

/-- `Client._init_supabase_auth_client`. -/
def initSupabaseAuthClient (auth_url : String) (client_options : ClientOptions) :
    SupabaseAuthClient :=
  { url := auth_url
    auto_refresh_token := client_options.auto_refresh_token
    persist_session := client_options.persist_session
    headers := client_options.headers
    session := client_options.storage }

/-- `Client._init_postgrest_client`: construct, then `client.auth(token)`. -/
def initPostgrestClient (rest_url : String) (token : String)
    (headers : List (String × String)) (schema : String) (timeout : Nat) :
    SyncPostgrestClient :=
  SyncPostgrestClient.auth
    { base_url := rest_url, headers := headers, schema := schema,
      timeout := timeout, token := none }
    token

/-- `Client._init_storage_client`. -/
def initStorageClient (storage_url : String) (headers : List (String × String))
    (storage_client_timeout : Nat) : SupabaseStorageClient :=
  { url := storage_url, headers := headers, timeout := storage_client_timeout }

/-- The functions-URL derivation inside `Client.__init__`: if the URL contains
a managed-hosting suffix, split on `.` and reassemble part 0, `.functions.`,
part 1, `.`, part 2 — an `IndexError` escapes when the split yields fewer
than three parts; otherwise append `/functions/v1`. -/
def deriveFunctionsUrl (supabase_url : String) : Except InitError String :=
  if isPlatform supabase_url then
    match splitDotS supabase_url with
    | p0 :: p1 :: p2 :: _ =>
      .ok (p0 ++ ".functions." ++ p1 ++ "." ++ p2)
    | _ => .error .indexError
  else
    .ok (supabase_url ++ "/functions/v1")

/-- The assembly tail of `Client.__init__`, once validation passed and the
functions URL was derived: build the auth sub-client, merge the computed auth
headers into the option headers, resolve the bearer token from the current
session (raw key fallback), construct the database and storage sub-clients. -/
def assemble (supabase_url supabase_key : String) (options : ClientOptions)
    (functions_url : String) : Client :=
  let rest_url := supabase_url ++ "/rest/v1"
  let realtime_url := String.mk (replaceHttpWs (supabase_url ++ "/realtime/v1").data)
  let auth_url := supabase_url ++ "/auth/v1"
  let storage_url := supabase_url ++ "/storage/v1"
  let auth := initSupabaseAuthClient auth_url options
  let headers := dictUpdate options.headers (authHeadersOf supabase_key auth.get_session)
  let data := auth.get_session
  let token := match data with
               | some s => s.access_token
               | none => supabase_key
  let postgrest := initPostgrestClient rest_url token headers options.schema
    options.postgrest_client_timeout
  let storage := initStorageClient storage_url
    (authHeadersOf supabase_key auth.get_session) options.storage_client_timeout
  { supabase_url := supabase_url
    supabase_key := supabase_key
    rest_url := rest_url
    realtime_url := realtime_url
    auth_url := auth_url
    storage_url := storage_url
    functions_url := functions_url
    schema := options.schema
    auth := auth
    realtime := none
    postgrest := postgrest
    storage := storage }

/-- `Client.__init__` / `create_client`: validate the URL and key in source
order, derive the endpoints, assemble the sub-clients. A raised exception is
an `Except.error`; no partial handle exists in that case. -/
def clientInit (supabase_url supabase_key : String)
    (options : ClientOptions) : Except InitError Client :=
  if supabase_url = "" then
    .error (.supabaseException "supabase_url is required")
  else if supabase_key = "" then
    .error (.supabaseException "supabase_key is required")
  else if ¬ urlMatch supabase_url then
    .error (.supabaseException "Invalid URL")
  else if ¬ jwtMatch supabase_key then
    .error (.supabaseException "Invalid API key")
  else
    match deriveFunctionsUrl supabase_url with
    | .error e => .error e
    | .ok functions_url => .ok (assemble supabase_url supabase_key options functions_url)

/-- `create_client(supabase_url, supabase_key, options)` delegates to the
`Client` constructor unchanged. -/
def create_client (supabase_url supabase_key : String)
    (options : ClientOptions) : Except InitError Client :=
  clientInit supabase_url supabase_key options

/-- `Client._get_auth_headers` on a constructed handle. -/
def Client.get_auth_headers (c : Client) : List (String × String) :=
  authHeadersOf c.supabase_key c.auth.get_session

/-- `Client.set_session(access_token, refresh_token)`: forward to the auth
sub-client, re-authenticate the database sub-client with the access token,
return the response of the auth sub-client. Exposed operations are state-passing:
they return the (possibly) updated handle next to their result. -/
def Client.set_session (c : Client) (access_token refresh_token : String) :
    Client × AuthResponse :=
  let res := c.auth.setSession access_token refresh_token
  let postgrest := c.postgrest.auth access_token
  ({ c with auth := res.1, postgrest := postgrest }, res.2)

/-- `Client.functions()`: a fresh functions sub-client from the functions
endpoint and the auth headers recomputed at call time. -/
def Client.functions (c : Client) : Client × FunctionsClient :=
  (c, ⟨c.functions_url, c.get_auth_headers⟩)

/-- `Client.from_(table_name)`: delegate to the query-builder factory of the
database sub-client. -/
def Client.from_ (c : Client) (table_name : String) :
    Client × SyncRequestBuilder :=
  (c, c.postgrest.from_ table_name)

/-- `Client.table(table_name)`: same operation as `from_`, exposed because
`from` is a reserved keyword in Python. -/
def Client.table (c : Client) (table_name : String) :
    Client × SyncRequestBuilder :=
  c.from_ table_name

/-- `Client.rpc(fn, params)`: delegate to the remote-procedure-call factory of
the database sub-client. -/
def Client.rpc (c : Client) (fn : String) (params : List (String × String)) :
    Client × SyncFilterRequestBuilder :=
  (c, c.postgrest.rpc fn params)

/-- A client concretely constructed on a managed-hosting base URL, used to
instantiate universally quantified theorems. -/
def sampleClient : Client :=
  (clientInit "https://xyz.supabase.co" "a.b.c" {}).toOption.get rfl

/-- A client concretely constructed on a self-hosted base URL. -/
def selfHostedClient : Client :=
  (clientInit "https://example.com:8000" "a.b.c" {}).toOption.get rfl

/-! ## Helper lemmas -/

theorem urlMatch_ne_empty {url : String} (h : urlMatch url = true) : url ≠ "" := by
  intro e
  subst e
  exact absurd h (by decide)

theorem clientInit_ok_destruct {url key : String} {opts : ClientOptions} {c : Client}
    (h : clientInit url key opts = Except.ok c) :
    ∃ functions_url, deriveFunctionsUrl url = Except.ok functions_url ∧
      c = assemble url key opts functions_url := by
  unfold clientInit at h
  split at h
  · exact Except.noConfusion h
  split at h
  · exact Except.noConfusion h
  split at h
  · exact Except.noConfusion h
  split at h
  · exact Except.noConfusion h
  split at h
  · exact Except.noConfusion h
  · rename_i functions_url heq
    exact ⟨functions_url, heq, (Except.ok.inj h).symm⟩

theorem afterFirst_eq_false_of_no_dot {l : List Char} (h : ∀ c ∈ l, c ≠ '.') :
    afterFirst l = false := by
  induction l with
  | nil => rfl
  | cons c t ih =>
    have hc : c ≠ '.' := h c (List.mem_cons_self c t)
    have ht : afterFirst t = false := ih fun x hx => h x (List.mem_cons_of_mem c hx)
    simp [afterFirst, hc, ht]

theorem coreMatchL_eq_false_of_no_dot {l : List Char} (h : ∀ c ∈ l, c ≠ '.') :
    coreMatchL l = false := by
  cases l with
  | nil => rfl
  | cons c t =>
    have ht : afterFirst t = false :=
      afterFirst_eq_false_of_no_dot fun x hx => h x (List.mem_cons_of_mem c hx)
    simp [coreMatchL, ht]

theorem stripTrailingNewline_mem {l l2 : List Char}
    (h : stripTrailingNewline l = some l2) : ∀ c ∈ l2, c ∈ l := by
  unfold stripTrailingNewline at h
  split at h
  · have hl : l.dropLast = l2 := Option.some.inj h
    subst hl
    exact fun c hc => List.dropLast_subset l hc
  · exact Option.noConfusion h

theorem jwtMatch_eq_false_of_no_dot {key : String} (h : ∀ c ∈ key.data, c ≠ '.') :
    jwtMatch key = false := by
  unfold jwtMatch
  rw [coreMatchL_eq_false_of_no_dot h]
  cases hs : stripTrailingNewline key.data with
  | none => simp
  | some l2 =>
    have h2 : coreMatchL l2 = false :=
      coreMatchL_eq_false_of_no_dot fun c hc => h c (stripTrailingNewline_mem hs c hc)
    simp [h2]

/-! ## Claim theorems -/

/-- Claim C1 (amended): for every successfully constructed client, the derived
functions endpoint has exactly one of two shapes, selected by whether the base
URL contains a managed-hosting domain suffix: on a match it is reassembled
from the dot-split of the URL as part 0 (which still carries the scheme),
`.functions.`, part 1, `.`, part 2 — so for `https://xyz.supabase.co` it is
exactly `https://xyz.functions.supabase.co` — and for any base URL not
matching the managed suffixes it is exactly the base URL with `/functions/v1`
appended. -/
theorem c1_functions_url_two_shapes :
    (∀ (url key : String) (opts : ClientOptions) (c : Client),
      clientInit url key opts = Except.ok c →
      (isPlatform url = false → c.functions_url = url ++ "/functions/v1") ∧
      (isPlatform url = true → ∃ p0 p1 p2 rest,
        splitDotS url = p0 :: p1 :: p2 :: rest ∧
        c.functions_url = p0 ++ ".functions." ++ p1 ++ "." ++ p2)) ∧
    (clientInit "https://xyz.supabase.co" "a.b.c" {}).map Client.functions_url
      = Except.ok "https://xyz.functions.supabase.co" := by
  constructor
  · intro url key opts c h
    obtain ⟨f, heq, rfl⟩ := clientInit_ok_destruct h
    unfold deriveFunctionsUrl at heq
    constructor
    · intro hp
      rw [hp] at heq
      simp only [Bool.false_eq_true, if_false] at heq
      have hf : url ++ "/functions/v1" = f := Except.ok.inj heq
      exact hf ▸ rfl
    · intro hp
      rw [hp] at heq
      simp only [if_true] at heq
      cases hs : splitDotS url with
      | nil => rw [hs] at heq; exact Except.noConfusion heq
      | cons p0 t =>
        cases t with
        | nil => rw [hs] at heq; exact Except.noConfusion heq
        | cons p1 t2 =>
          cases t2 with
          | nil => rw [hs] at heq; exact Except.noConfusion heq
          | cons p2 rest =>
            rw [hs] at heq
            have hf : p0 ++ ".functions." ++ p1 ++ "." ++ p2 = f :=
              Except.ok.inj heq
            exact ⟨p0, p1, p2, rest, rfl, hf ▸ rfl⟩
  · rfl

/-- Claim C1 counterexample: for the base URL `https://xyz.supabase.co` the
derived functions endpoint is `https://xyz.functions.supabase.co` — the first
dot-segment of the split keeps the scheme — and not the claimed bare string
`xyz.functions.supabase.co`. -/
theorem c1_counterexample_scheme_retained :
    (clientInit "https://xyz.supabase.co" "a.b.c" {}).map Client.functions_url
      = Except.ok "https://xyz.functions.supabase.co" ∧
    "https://xyz.functions.supabase.co" ≠ "xyz.functions.supabase.co" :=
  ⟨rfl, by decide⟩

/-- Claim C1 witness: the amended theorem applied to the concrete self-hosted
base URL `https://example.com:8000`. -/
theorem c1_witness_self_hosted :
    clientInit "https://example.com:8000" "a.b.c" {} = Except.ok selfHostedClient ∧
    selfHostedClient.functions_url = "https://example.com:8000" ++ "/functions/v1" :=
  ⟨rfl,
   (c1_functions_url_two_shapes.1 "https://example.com:8000" "a.b.c" {}
     selfHostedClient rfl).1 rfl⟩

/-- Claim C2: for an empty base URL, an empty key, or a base URL that does not
match the `http`/`https` scheme pattern, construction fails with the single
configuration error (the `SupabaseException` constructor, with the message of
the corresponding source check), so no partial handle is ever returned. -/
theorem c2_invalid_config_rejected (url key : String) (opts : ClientOptions) :
    (url = "" →
      clientInit url key opts
        = Except.error (.supabaseException "supabase_url is required")) ∧
    (url ≠ "" → key = "" →
      clientInit url key opts
        = Except.error (.supabaseException "supabase_key is required")) ∧
    (url ≠ "" → key ≠ "" → urlMatch url = false →
      clientInit url key opts = Except.error (.supabaseException "Invalid URL")) := by
  refine ⟨fun h1 => ?_, fun h1 h2 => ?_, fun h1 h2 h3 => ?_⟩
  · simp [clientInit, h1]
  · simp [clientInit, h1, h2]
  · simp [clientInit, h1, h2, h3]

/-- Claim C2 witness: the three rejection branches at concrete inputs. -/
theorem c2_witness :
    clientInit "" "a.b.c" {}
      = Except.error (.supabaseException "supabase_url is required") ∧
    clientInit "http://x" "" {}
      = Except.error (.supabaseException "supabase_key is required") ∧
    clientInit "ftp://x" "a.b.c" {}
      = Except.error (.supabaseException "Invalid URL") :=
  ⟨(c2_invalid_config_rejected "" "a.b.c" {}).1 rfl,
   (c2_invalid_config_rejected "http://x" "" {}).2.1 (by decide) rfl,
   (c2_invalid_config_rejected "ftp://x" "a.b.c" {}).2.2 (by decide) (by decide)
     (by decide)⟩

/-- Claim C3 (amended): every non-empty key that fails the shape pattern is
rejected with the configuration error, and every key containing no dot at all
is rejected; but the pattern requires only two dot-delimited segments (the
third segment is optional), so the two-segment key `a.b` is accepted. -/
theorem c3_key_validation_two_segments :
    (∀ (url key : String) (opts : ClientOptions),
      urlMatch url = true → key ≠ "" → jwtMatch key = false →
      clientInit url key opts = Except.error (.supabaseException "Invalid API key")) ∧
    (∀ key : String, (∀ c ∈ key.data, c ≠ '.') → jwtMatch key = false) ∧
    jwtMatch "a.b" = true := by
  refine ⟨fun url key opts h1 h2 h3 => ?_, fun key h => jwtMatch_eq_false_of_no_dot h, rfl⟩
  have hu : url ≠ "" := urlMatch_ne_empty h1
  simp [clientInit, hu, h2, h1, h3]

/-- Claim C3 counterexample: the two-segment key `a.b` passes the key pattern
and construction with it succeeds, although the claim says keys with fewer
than three dot-delimited segments are rejected. -/
theorem c3_counterexample_two_segment_key_accepted :
    (splitDotS "a.b").length = 2 ∧ jwtMatch "a.b" = true ∧
    (clientInit "https://example.com:8000" "a.b" {}).isOk = true :=
  ⟨rfl, rfl, rfl⟩

/-- Claim C3 witness: the amended theorem applied to the dotless key `abc`. -/
theorem c3_witness_dotless_key :
    clientInit "http://x" "abc" {}
      = Except.error (.supabaseException "Invalid API key") ∧
    jwtMatch "abc" = false :=
  ⟨c3_key_validation_two_segments.1 "http://x" "abc" {} (by decide) (by decide)
     (by decide),
   c3_key_validation_two_segments.2.1 "abc" (by decide)⟩

/-- Claim C4 (code evidence): the computed auth headers are the two-entry map
of `apiKey` and `Authorization`, and the bearer token is the access token of
the current session when one exists; but with no session the code interpolates
the Python `None` into the f-string, producing `Bearer None` instead of the
claimed raw-key fallback. -/
theorem c4_bearer_none_fallback :
    (clientInit "https://example.com:8000" "a.b.c" {}).map Client.get_auth_headers
      = Except.ok [("apiKey", "a.b.c"), ("Authorization", "Bearer None")] ∧
    (∀ (key : String) (s : Session), authHeadersOf key (some s)
      = [("apiKey", key), ("Authorization", "Bearer " ++ s.access_token)]) ∧
    authHeadersOf "a.b.c" none
      ≠ [("apiKey", "a.b.c"), ("Authorization", "Bearer a.b.c")] :=
  ⟨rfl, fun key s => rfl, by decide⟩

/-- Claim C4 witness: the with-session header shape at a concrete key and
session. -/
theorem c4_witness_with_session :
    authHeadersOf "a.b.c" (some ⟨"tok", "ref"⟩)
      = [("apiKey", "a.b.c"), ("Authorization", "Bearer tok")] :=
  c4_bearer_none_fallback.2.1 "a.b.c" ⟨"tok", "ref"⟩

/-- Claim C5: for every successfully constructed client, the derived REST,
auth and storage endpoints are exactly the base URL with `/rest/v1`,
`/auth/v1` and `/storage/v1` appended. -/
theorem c5_rest_auth_storage_urls (url key : String) (opts : ClientOptions)
    (c : Client) (h : clientInit url key opts = Except.ok c) :
    c.rest_url = url ++ "/rest/v1" ∧ c.auth_url = url ++ "/auth/v1" ∧
    c.storage_url = url ++ "/storage/v1" := by
  obtain ⟨f, -, rfl⟩ := clientInit_ok_destruct h
  exact ⟨rfl, rfl, rfl⟩

/-- Claim C5 witness: the endpoint equations at the concrete base URL
`https://xyz.supabase.co`. -/
theorem c5_witness_sample :
    clientInit "https://xyz.supabase.co" "a.b.c" {} = Except.ok sampleClient ∧
    sampleClient.rest_url = "https://xyz.supabase.co/rest/v1" ∧
    sampleClient.auth_url = "https://xyz.supabase.co/auth/v1" ∧
    sampleClient.storage_url = "https://xyz.supabase.co/storage/v1" := by
  have h := c5_rest_auth_storage_urls "https://xyz.supabase.co" "a.b.c" {}
    sampleClient rfl
  exact ⟨rfl, h.1.trans rfl, h.2.1.trans rfl, h.2.2.trans rfl⟩

/-- Claim C6: for every successfully constructed client, the derived realtime
endpoint is the base URL with `/realtime/v1` appended and then every
occurrence of the literal substring `http` replaced by `ws` — a textual
replace, as the concrete conjunct shows: an occurrence of `http` in the host
name is rewritten too. -/
theorem c6_realtime_textual_replace :
    (∀ (url key : String) (opts : ClientOptions) (c : Client),
      clientInit url key opts = Except.ok c →
      c.realtime_url = String.mk (replaceHttpWs (url ++ "/realtime/v1").data)) ∧
    (clientInit "http://httpbin.org" "a.b.c" {}).map Client.realtime_url
      = Except.ok "ws://wsbin.org/realtime/v1" := by
  constructor
  · intro url key opts c h
    obtain ⟨f, -, rfl⟩ := clientInit_ok_destruct h
    rfl
  · rfl

/-- Claim C6 witness: the realtime endpoint equation at the concrete base URL
`https://xyz.supabase.co`, where the replace turns `https` into `wss`. -/
theorem c6_witness_sample :
    clientInit "https://xyz.supabase.co" "a.b.c" {} = Except.ok sampleClient ∧
    sampleClient.realtime_url
      = String.mk (replaceHttpWs ("https://xyz.supabase.co" ++ "/realtime/v1").data) ∧
    sampleClient.realtime_url = "wss://xyz.supabase.co/realtime/v1" :=
  ⟨rfl,
   c6_realtime_textual_replace.1 "https://xyz.supabase.co" "a.b.c" {} sampleClient rfl,
   rfl⟩

/-- Claim C7: `set_session` installs the session made of the two tokens in the
auth sub-client, re-authenticates the already-constructed database sub-client
with the new access token, and returns exactly what the auth sub-client
reports. -/
theorem c7_set_session_delegation (c : Client) (access_token refresh_token : String) :
    (c.set_session access_token refresh_token).1.auth
      = (c.auth.setSession access_token refresh_token).1 ∧
    (c.set_session access_token refresh_token).1.auth.session
      = some ⟨access_token, refresh_token⟩ ∧
    (c.set_session access_token refresh_token).1.postgrest
      = c.postgrest.auth access_token ∧
    (c.set_session access_token refresh_token).1.postgrest.token
      = some access_token ∧
    (c.set_session access_token refresh_token).2
      = (c.auth.setSession access_token refresh_token).2 :=
  ⟨rfl, rfl, rfl, rfl, rfl⟩

/-- Claim C7 witness: the delegation equations at a concrete client and token
pair. -/
theorem c7_witness_sample :
    (sampleClient.set_session "new-access" "new-refresh").1.postgrest.token
      = some "new-access" ∧
    (sampleClient.set_session "new-access" "new-refresh").2
      = (sampleClient.auth.setSession "new-access" "new-refresh").2 :=
  ⟨(c7_set_session_delegation sampleClient "new-access" "new-refresh").2.2.2.1,
   (c7_set_session_delegation sampleClient "new-access" "new-refresh").2.2.2.2⟩

/-- Claim C8: `table` and `from_` are the same operation — `table` delegates
to `from_`, and both produce the query builder of the database sub-client
keyed by the table name. -/
theorem c8_table_from_equivalent (c : Client) (table_name : String) :
    c.table table_name = c.from_ table_name ∧
    (c.from_ table_name).2 = c.postgrest.from_ table_name :=
  ⟨rfl, rfl⟩

/-- Claim C8 witness: the two spellings agree at a concrete client and table
name. -/
theorem c8_witness_sample :
    sampleClient.table "countries" = sampleClient.from_ "countries" :=
  (c8_table_from_equivalent sampleClient "countries").1

/-- Claim C9: none of the exposed operations (`set_session`, `functions`,
`table`, `from_`, `rpc`) changes any of the five derived endpoint strings of
the handle. -/
theorem c9_endpoints_immutable (c : Client) (access_token refresh_token : String)
    (table_name fn : String) (params : List (String × String)) :
    ((c.set_session access_token refresh_token).1.rest_url = c.rest_url ∧
     (c.set_session access_token refresh_token).1.realtime_url = c.realtime_url ∧
     (c.set_session access_token refresh_token).1.auth_url = c.auth_url ∧
     (c.set_session access_token refresh_token).1.storage_url = c.storage_url ∧
     (c.set_session access_token refresh_token).1.functions_url = c.functions_url) ∧
    c.functions.1 = c ∧
    (c.table table_name).1 = c ∧
    (c.from_ table_name).1 = c ∧
    (c.rpc fn params).1 = c :=
  ⟨⟨rfl, rfl, rfl, rfl, rfl⟩, rfl, rfl, rfl, rfl⟩

/-- Claim C9 witness: endpoint preservation at a concrete client and inputs. -/
theorem c9_witness_sample :
    (sampleClient.set_session "new-access" "new-refresh").1.rest_url
      = sampleClient.rest_url ∧
    (sampleClient.rpc "hello" []).1 = sampleClient :=
  ⟨(c9_endpoints_immutable sampleClient "new-access" "new-refresh" "t" "hello" []).1.1,
   (c9_endpoints_immutable sampleClient "new-access" "new-refresh" "t" "hello" []).2.2.2.2⟩

/-- Claim C10: the base URL `https://supabase.co` passes the URL validator and
contains a managed-hosting suffix, but splits on `.` into only two parts, so
construction with a well-formed key fails with the uncaught index error of the
functions-URL derivation rather than the configuration error. -/
theorem c10_platform_short_url_index_error :
    urlMatch "https://supabase.co" = true ∧
    jwtMatch "a.b.c" = true ∧
    isPlatform "https://supabase.co" = true ∧
    (splitDotS "https://supabase.co").length = 2 ∧
    clientInit "https://supabase.co" "a.b.c" {} = Except.error InitError.indexError :=
  ⟨rfl, rfl, rfl, rfl, rfl⟩

end Supabase
